import Mathlib

/-!
Shallow embedding of the password strength evaluation core
(config.py, entropy.py, patterns.py, breach.py, scorer.py, evaluator.py).

Modelling conventions:
 -  Python floats are modelled as exact rationals.  The only float
    operations the core performs are +, -, *, /, comparisons, int()
    truncation, round(x, 2) and fixed-precision formatting, all of which
    are embedded exactly over Rat; math.log2 (applied to the integer
    character-pool size) is irrational valued and is therefore kept as
    an explicit function parameter of the entropy estimator.
 -  Library primitives that are not part of this repository are
    likewise kept as explicit function parameters: hashlib.sha1
    hexdigest (parameter sha1hex) and difflib.SequenceMatcher.ratio
    (parameter ratio).  The network interaction of the remote breach
    check is modelled by the inductive HibpEnv describing the outcome
    the requests library delivers.
 -  Python str.lower / str.upper / islower / isupper / isdigit /
    isalpha are modelled by their ASCII restrictions (the passwords the
    detectors reason about are treated as ASCII; all fixed
    configuration strings of the program are ASCII).
 -  Python dicts that the code only reads by key are modelled as
    association lists in insertion order; Python sets are modelled as
    lists read only through membership.
-/

/-- Python str.lower, ASCII model. -/
def pyLower (s : String) : String := String.mk (s.data.map Char.toLower)

/-- Python str.upper on a character list, ASCII model. -/
def pyUpperL (s : List Char) : List Char := s.map Char.toUpper

/-- Python int(c) for a single digit character. -/
def digitVal (c : Char) : ℤ := (c.toNat : ℤ) - 48

/-- Python truthiness of an optional string: None and the empty string are falsy. -/
def truthyOpt : Option String → Bool
  | none => false
  | some s => s != ""

/-- Python round to nearest integer with banker's rounding (round-half-even). -/
def roundHalfEven (x : ℚ) : ℤ :=
  let f := Int.floor x
  let frac := x - (f : ℚ)
  if frac < 1/2 then f
  else if 1/2 < frac then f + 1
  else if f % 2 = 0 then f else f + 1

/-- Python round(x, 2). -/
def round2 (q : ℚ) : ℚ := (roundHalfEven (q * 100) : ℚ) / 100

/-- Left-pads a string with zeros up to width d. -/
def padZeros (s : String) (d : ℕ) : String :=
  String.mk (List.replicate (d - s.length) '0') ++ s

/-- Python fixed-point formatting f-string {q:.df}. -/
def formatFixed (q : ℚ) (d : ℕ) : String :=
  let scaled := roundHalfEven (q * ((10 : ℚ) ^ d))
  let n := scaled.natAbs
  let ip := n / 10 ^ d
  let fp := n % 10 ^ d
  (if scaled < 0 then "-" else "") ++ toString ip ++ "." ++ padZeros (toString fp) d

/-- Python str.split(sep) on a character list; the result is always non-empty. -/
def splitOnChar (sep : Char) : List Char → List (List Char)
  | [] => [[]]
  | c :: rest =>
    let r := splitOnChar sep rest
    if c = sep then [] :: r
    else
      match r with
      | [] => [[c]]
      | h :: t => (c :: h) :: t

/-- Python substring containment on character lists (needle in haystack). -/
def listInfix (needle : List Char) : List Char → Bool
  | [] => needle.isEmpty
  | x :: xs => needle.isPrefixOf (x :: xs) || listInfix needle xs

/-! ## config.py -/

/-- SCORE_THRESHOLDS dict of config.py. -/
def SCORE_THRESHOLDS (k : String) : ℤ :=
  if k = "WEAK" then 40
  else if k = "MEDIUM" then 60
  else if k = "STRONG" then 80
  else 100

/-- MIN_ENTROPY_BITS of config.py. -/
def MIN_ENTROPY_BITS : ℚ := 20

/-- ENTROPY_PENALTY_MULTIPLIER of config.py (0.3). -/
def ENTROPY_PENALTY_MULTIPLIER : ℚ := 3/10

/-- PATTERN_THRESHOLDS of config.py. -/
def PATTERN_THRESHOLDS_min_repeat_length : ℕ := 3

def PATTERN_THRESHOLDS_min_sequence_length : ℕ := 4

def PATTERN_THRESHOLDS_min_keyboard_pattern_length : ℕ := 4

def PATTERN_THRESHOLDS_max_year_range : ℕ × ℕ := (1900, 2099)

def PATTERN_THRESHOLDS_min_dictionary_word_length : ℕ := 4

/-- PATTERN_PENALTIES dict of config.py, read through dict.get(key, 0). -/
def PATTERN_PENALTIES (t : String) : ℤ :=
  if t = "repeated_chars" then 15
  else if t = "sequential_chars" then 20
  else if t = "keyboard_pattern" then 25
  else if t = "leetspeak" then 10
  else if t = "dictionary_word" then 30
  else if t = "year_pattern" then 15
  else if t = "username_similarity" then 25
  else if t = "low_variety" then 20
  else 0

/-- SIMILARITY_THRESHOLD of config.py (0.5). -/
def SIMILARITY_THRESHOLD : ℚ := 1/2

/-- MIN_CHAR_VARIETY_RATIO of config.py (0.3). -/
def MIN_CHAR_VARIETY_RATIO : ℚ := 3/10

/-- BREACH_CONFIG dict of config.py. -/
structure BreachConfig where
  local_blacklist_file : String
  hibp_api_url : String
  hibp_enabled : Bool
  breach_force_weak : Bool
deriving DecidableEq

/-- BREACH_CONFIG default values of config.py (hibp_enabled is False). -/
def BREACH_CONFIG : BreachConfig :=
  ⟨"data/top_10k_passwords.txt", "https://api.pwnedpasswords.com/range/", false, true⟩

/-- Fixed 33-character special-symbol set of entropy.py line 51 / config.py. -/
def SPECIAL_CHARS : List Char :=
  "!\"#$%&\x27()*+,-./:;<=>?@[\\]^_\x60\x7b|\x7d~".data

/-- get_char_pool_size of config.py: sum of per-class pool sizes, floored at 1. -/
def get_char_pool_size (hl hu hd hs : Bool) : ℕ :=
  let p := (if hl then 26 else 0) + (if hu then 26 else 0)
    + (if hd then 10 else 0) + (if hs then 33 else 0)
  max p 1

/-! ## entropy.py -/

/-- Character-class flag dict returned by EntropyCalculator.calculate_entropy.
For the empty password the Python dict has no pool_size key; no caller reads
it, and it is modelled as 0 there. -/
structure CharClasses where
  has_lower : Bool
  has_upper : Bool
  has_digit : Bool
  has_special : Bool
  pool_size : ℕ
deriving DecidableEq

/-- EntropyCalculator.calculate_entropy of entropy.py.  The parameter log2
models math.log2 applied to the integer pool size. -/
def calculate_entropy (log2 : ℕ → ℚ) (password : String) (has_patterns : Bool) :
    ℚ × CharClasses :=
  if password = "" then
    (0, ⟨false, false, false, false, 0⟩)
  else
    let cs := password.data
    let hl := cs.any Char.isLower
    let hu := cs.any Char.isUpper
    let hd := cs.any Char.isDigit
    let hs := cs.any (fun c => SPECIAL_CHARS.contains c)
    let pool := get_char_pool_size hl hu hd hs
    let base := (password.length : ℚ) * log2 pool
    let eff := if has_patterns then base * (1 - ENTROPY_PENALTY_MULTIPLIER) else base
    (max 0 eff, ⟨hl, hu, hd, hs, pool⟩)

/-- Projection of the four character-class presence flags. -/
def flagsOf (c : CharClasses) : Bool × Bool × Bool × Bool :=
  (c.has_lower, c.has_upper, c.has_digit, c.has_special)

/-! ## scorer.py -/

/-- Entropy-to-base-score piecewise map of PasswordScorer.calculate_score
lines 58-67.  Python int() truncates toward zero; every branch is applied
to a non-negative argument, where truncation agrees with Int.floor. -/
def base_score_of_entropy (e : ℚ) : ℤ :=
  if e ≤ 0 then 0
  else if e < 20 then Int.floor ((e / 20) * 20)
  else if e < 40 then Int.floor (20 + ((e - 20) / 20) * 30)
  else if e < 60 then Int.floor (50 + ((e - 40) / 20) * 20)
  else Int.floor (70 + min ((e - 60) / 20 * 10) 10)

/-- Length bonus of PasswordScorer.calculate_score lines 79-84. -/
def length_bonus (length : ℕ) : ℤ :=
  if length ≥ 16 then 5 else if length ≥ 12 then 3 else if length ≥ 8 then 1 else 0

/-- PasswordScorer.calculate_score of scorer.py.  pattern_issues models the
Python dict as an association list in insertion order; the penalty loop
subtracts the per-type penalty once for each key whose issue list is
non-empty. -/
def calculate_score (entropy_bits : ℚ) (pattern_issues : List (String × List String))
    (is_breached : Bool) (length : ℕ) : ℤ :=
  if is_breached then 0
  else
    let base := base_score_of_entropy entropy_bits
    let afterPen := pattern_issues.foldl
      (fun acc p => if p.2.isEmpty then acc else acc - PATTERN_PENALTIES p.1) base
    let score := afterPen + length_bonus length
    max 0 (min 100 score)

/-- PasswordScorer.classify_strength of scorer.py. -/
def classify_strength (score : ℤ) : String :=
  if score < SCORE_THRESHOLDS "WEAK" then "Weak"
  else if score < SCORE_THRESHOLDS "MEDIUM" then "Medium"
  else if score < SCORE_THRESHOLDS "STRONG" then "Strong"
  else "Very Strong"

/-! ## patterns.py -/

/-- KEYBOARD_ROWS of patterns.py. -/
def KEYBOARD_ROWS : List String :=
  ["qwertyuiop", "asdfghjkl", "zxcvbnm", "1234567890"]

/-- All length-n windows of a character list, in order (Python
range(len - n + 1) sliding windows; empty when the list is shorter). -/
def windowsOf (n : ℕ) (cs : List Char) : List (List Char) :=
  (List.range (cs.length + 1 - n)).map fun i => (cs.drop i).take n

/-- Length-n contiguous slices of one keyboard row
(_build_keyboard_patterns inner loops). -/
def rowSlices (n : ℕ) (row : List Char) : List (List Char) := windowsOf n row

/-- Column-wise read of the first three keyboard rows at one column index
(_build_keyboard_patterns column loop). -/
def colPattern (colIdx : ℕ) : List Char :=
  (KEYBOARD_ROWS.take 3).foldl
    (fun acc row => if colIdx < row.length then acc ++ [row.data.getD colIdx ' '] else acc) []

/-- keyboard_patterns set built by _build_keyboard_patterns: forward row
slices, reversed row slices and column reads, each together with its
uppercase form.  The Python set is modelled as a list read only through
membership. -/
def keyboard_patterns : List (List Char) :=
  let n := PATTERN_THRESHOLDS_min_keyboard_pattern_length
  let rows := KEYBOARD_ROWS.map String.data
  let fwd := rows.foldl
    (fun acc r => (rowSlices n r).foldl (fun a p => a ++ [p, pyUpperL p]) acc) []
  let rev := rows.foldl
    (fun acc r => (rowSlices n r.reverse).foldl (fun a p => a ++ [p, pyUpperL p]) acc) []
  let cols := (List.range 10).foldl
    (fun acc i =>
      let cp := colPattern i
      if cp.length ≥ n then acc ++ [cp, pyUpperL cp] else acc) []
  fwd ++ rev ++ cols

/-- _detect_repeated_chars of patterns.py: maximal runs of one character,
reported once per run of length at least min_repeat_length. -/
def detect_repeated_chars (password : String) : List String :=
  (password.data.splitBy (fun a b => a == b)).filterMap fun run =>
    match run with
    | [] => none
    | c :: _ =>
      if run.length ≥ PATTERN_THRESHOLDS_min_repeat_length then
        some ("Repeated character \x27" ++ String.mk [c] ++ "\x27 "
          ++ toString run.length ++ " times")
      else none

/-- Python str.isalpha, ASCII model (False on the empty string). -/
def pyStrIsAlpha (s : List Char) : Bool := !s.isEmpty && s.all Char.isAlpha

/-- Python str.isdigit, ASCII model (False on the empty string). -/
def pyStrIsDigit (s : List Char) : Bool := !s.isEmpty && s.all Char.isDigit

/-- Pairwise loop of _is_ascending_alpha: each code point is the previous
plus one. -/
def ascAlphaChain : List Char → Bool
  | a :: b :: rest => (b.toNat == a.toNat + 1) && ascAlphaChain (b :: rest)
  | _ => true

/-- Pairwise loop of _is_descending_alpha: each code point is the previous
minus one. -/
def descAlphaChain : List Char → Bool
  | a :: b :: rest => (b.toNat + 1 == a.toNat) && descAlphaChain (b :: rest)
  | _ => true

/-- _is_ascending_alpha of patterns.py. -/
def is_ascending_alpha (s : List Char) : Bool :=
  pyStrIsAlpha s && ascAlphaChain (s.map Char.toLower)

/-- _is_descending_alpha of patterns.py. -/
def is_descending_alpha (s : List Char) : Bool :=
  pyStrIsAlpha s && descAlphaChain (s.map Char.toLower)

/-- Pairwise loop of _is_ascending_numeric: each digit equals the previous
plus one modulo 10 (the wrap 9 to 0 is admitted). -/
def ascNumChain : List Char → Bool
  | a :: b :: rest => (digitVal b == (digitVal a + 1) % 10) && ascNumChain (b :: rest)
  | _ => true

/-- Pairwise loop of _is_descending_numeric: each digit equals the previous
minus one modulo 10 (the wrap 0 to 9 is admitted; Lean Int.emod agrees
with the non-negative Python modulo). -/
def descNumChain : List Char → Bool
  | a :: b :: rest => (digitVal b == (digitVal a - 1) % 10) && descNumChain (b :: rest)
  | _ => true

/-- _is_ascending_numeric of patterns.py. -/
def is_ascending_numeric (s : List Char) : Bool :=
  pyStrIsDigit s && ascNumChain s

/-- _is_descending_numeric of patterns.py. -/
def is_descending_numeric (s : List Char) : Bool :=
  pyStrIsDigit s && descNumChain s

/-- _detect_sequential_chars of patterns.py: every length-4 window is
tested against the four predicates, first match wins. -/
def detect_sequential_chars (password : String) : List String :=
  (windowsOf PATTERN_THRESHOLDS_min_sequence_length password.data).filterMap fun w =>
    if is_ascending_alpha w then
      some ("Sequential pattern: \x27" ++ String.mk w ++ "\x27 (ascending)")
    else if is_descending_alpha w then
      some ("Sequential pattern: \x27" ++ String.mk w ++ "\x27 (descending)")
    else if is_ascending_numeric w then
      some ("Sequential pattern: \x27" ++ String.mk w ++ "\x27 (numerical)")
    else if is_descending_numeric w then
      some ("Sequential pattern: \x27" ++ String.mk w ++ "\x27 (numerical descending)")
    else none

/-- _detect_keyboard_patterns of patterns.py (takes the lowercased
password). -/
def detect_keyboard_patterns (passwordLower : List Char) : List String :=
  (windowsOf PATTERN_THRESHOLDS_min_keyboard_pattern_length passwordLower).filterMap fun w =>
    if keyboard_patterns.contains w then
      some ("Keyboard pattern detected: \x27" ++ String.mk w ++ "\x27")
    else none

/-- Union of the substitution characters of LEETSPEAK_MAP of patterns.py;
the per-character counting loop with break counts exactly the characters
in this union. -/
def LEETSPEAK_SUBS : List Char := ['4', '@', '3', '1', '!', '0', '5', '$', '7', '2']

/-- Fixed leetspeak regexes of _detect_leetspeak, each a sequence of
single-character alternations, paired with the resembled word. -/
def leetClassPatterns : List (List (List Char) × String) :=
  [([['a', '@'], ['d'], ['m'], ['i', '1'], ['n']], "admin"),
   ([['p'], ['@', 'a'], ['s'], ['s'], ['w'], ['o', '0'], ['r'], ['d']], "password"),
   ([['l', '1'], ['0'], ['v'], ['3']], "love"),
   ([['h', '4'], ['a'], ['c'], ['k']], "hack"),
   ([['t', '7'], ['e'], ['s'], ['t']], "test")]

/-- Matches a sequence of character alternations at the head of a string. -/
def matchesAt : List (List Char) → List Char → Bool
  | [], _ => true
  | _ :: _, [] => false
  | c :: cs, x :: xs => c.contains x && matchesAt cs xs

/-- Python re.search for a fixed sequence of character alternations: a
match may start at any position. -/
def searchPattern (cls : List (List Char)) : List Char → Bool
  | [] => matchesAt cls []
  | x :: xs => matchesAt cls (x :: xs) || searchPattern cls xs

/-- _detect_leetspeak of patterns.py (takes the lowercased password).
The float threshold 0.3 is modelled as the exact rational 3/10. -/
def detect_leetspeak (passwordLower : List Char) : List String :=
  let regexIssues := leetClassPatterns.filterMap fun p =>
    if searchPattern p.1 passwordLower then
      some ("Leetspeak substitution detected (resembles \x27" ++ p.2 ++ "\x27)")
    else none
  let leetCount := (passwordLower.filter (fun c => LEETSPEAK_SUBS.contains c)).length
  let ratioIssue :=
    if 0 < passwordLower.length ∧ 10 * leetCount > 3 * passwordLower.length then
      ["High leetspeak substitution ratio detected"]
    else []
  regexIssues ++ ratioIssue

/-- Quoted-word extraction used by the dictionary-word duplicate
suppression: issue.split(quote)[1] for issues containing a quote. -/
def extractQuoted (issue : String) : Option String :=
  if issue.data.contains '\x27' then
    match splitOnChar '\x27' issue.data with
    | _ :: w :: _ => some (String.mk w)
    | _ => none
  else none

/-- _detect_dictionary_words of patterns.py (takes the lowercased
password).  The dictionary set is modelled as a list; the whole-password
check comes first, then one substring check per word with duplicate
suppression by the quoted word of already emitted issues. -/
def detect_dictionary_words (dictionaryWords : List String) (passwordLower : String) :
    List String :=
  if dictionaryWords.isEmpty then []
  else
    let minLen := PATTERN_THRESHOLDS_min_dictionary_word_length
    let init :=
      if passwordLower.length ≥ minLen ∧ dictionaryWords.contains passwordLower then
        ["Password is a common dictionary word: \x27" ++ passwordLower ++ "\x27"]
      else []
    dictionaryWords.foldl
      (fun issues word =>
        if word.length ≥ minLen ∧ listInfix word.data passwordLower.data then
          if (issues.filterMap extractQuoted).contains word then issues
          else issues ++ ["Contains dictionary word: \x27" ++ word ++ "\x27"]
        else issues)
      init

/-- Python int() of a digit string. -/
def pyParseNat (cs : List Char) : ℕ :=
  cs.foldl (fun acc c => acc * 10 + (c.toNat - 48)) 0

/-- Non-overlapping left-to-right scan of re.finditer for four consecutive
digits: at each position, a run of four digits is consumed whole,
otherwise the scan advances one character. -/
def yearChunks (cs : List Char) : List (List Char) :=
  match cs with
  | [] => []
  | c :: rest =>
    let w := (c :: rest).take 4
    if w.length = 4 ∧ w.all Char.isDigit then w :: yearChunks (rest.drop 3)
    else yearChunks rest
termination_by cs.length
decreasing_by
  all_goals simp [List.length_drop]
  all_goals omega

/-- _detect_year_patterns of patterns.py: each four-digit chunk parsing
into the configured year range is reported. -/
def detect_year_patterns (password : String) : List String :=
  (yearChunks password.data).filterMap fun w =>
    let y := pyParseNat w
    if PATTERN_THRESHOLDS_max_year_range.1 ≤ y ∧ y ≤ PATTERN_THRESHOLDS_max_year_range.2 then
      some ("Year pattern detected: \x27" ++ String.mk w ++ "\x27")
    else none

/-- Local part of an email: the text before the first @ when one is
present, otherwise the whole string. -/
def emailLocal (emailLower : List Char) : List Char :=
  if emailLower.contains '@' then (splitOnChar '@' emailLower).headD []
  else emailLower

/-- _detect_username_similarity of patterns.py.  The parameter ratio
models difflib.SequenceMatcher(None, a, b).ratio(); username and email
are optional and tested for Python truthiness. -/
def detect_username_similarity (ratio : String → String → ℚ) (password : String)
    (username email : Option String) : List String :=
  if ¬ truthyOpt username = true ∧ ¬ truthyOpt email = true then []
  else
    let passwordLower := pyLower password
    let uIssues :=
      match username with
      | some u =>
        if u != "" then
          let ul := pyLower u
          let sub :=
            if listInfix ul.data passwordLower.data then
              ["Password contains username: \x27" ++ u ++ "\x27"]
            else []
          let sim := ratio passwordLower ul
          let simIssue :=
            if sim ≥ SIMILARITY_THRESHOLD then
              ["Password too similar to username (similarity: " ++ formatFixed sim 2 ++ ")"]
            else []
          sub ++ simIssue
        else []
      | none => []
    let eIssues :=
      match email with
      | some em =>
        if em != "" then
          let el := pyLower em
          let loc := emailLocal el.data
          let sub :=
            if listInfix loc passwordLower.data then
              ["Password contains email username: \x27" ++ String.mk loc ++ "\x27"]
            else []
          let sim := ratio passwordLower (String.mk loc)
          let simIssue :=
            if sim ≥ SIMILARITY_THRESHOLD then
              ["Password too similar to email (similarity: " ++ formatFixed sim 2 ++ ")"]
            else []
          sub ++ simIssue
        else []
      | none => []
    uIssues ++ eIssues

/-- _detect_low_variety of patterns.py: distinct characters over total
length below the configured ratio.  The float comparison is modelled over
exact rationals. -/
def detect_low_variety (password : String) : List String :=
  if password.length = 0 then []
  else
    let uniqueChars := password.data.eraseDups.length
    let varietyRatio : ℚ := (uniqueChars : ℚ) / (password.length : ℚ)
    if varietyRatio < MIN_CHAR_VARIETY_RATIO then
      ["Low character variety: " ++ toString uniqueChars ++ " unique characters out of "
        ++ toString password.length ++ " (ratio: " ++ formatFixed varietyRatio 2 ++ ")"]
    else []

/-- PatternDetector.detect_all of patterns.py: the eight detectors in the
insertion order of the issues dict, with empty categories removed. -/
def detect_all (ratio : String → String → ℚ) (dictionaryWords : List String)
    (password : String) (username email : Option String) :
    List (String × List String) :=
  let passwordLower := pyLower password
  ([("repeated_chars", detect_repeated_chars password),
    ("sequential_chars", detect_sequential_chars password),
    ("keyboard_pattern", detect_keyboard_patterns passwordLower.data),
    ("leetspeak", detect_leetspeak passwordLower.data),
    ("dictionary_word", detect_dictionary_words dictionaryWords passwordLower),
    ("year_pattern", detect_year_patterns password),
    ("username_similarity", detect_username_similarity ratio password username email),
    ("low_variety", detect_low_variety password)]).filter fun p => !p.2.isEmpty

/-! ## scorer.py recommendations -/

/-- Breach recommendation of generate_recommendations. -/
def recMsgBreached : String :=
  "This password has been compromised in a data breach. Use a completely different password."

/-- Weak-strength recommendation of generate_recommendations. -/
def recMsgWeak : String :=
  "Password is weak. Consider using a longer, more complex password."

/-- Low-entropy recommendation of generate_recommendations, with the
entropy formatted to one decimal place. -/
def recMsgEntropy (entropy_bits : ℚ) : String :=
  "Entropy is low (" ++ formatFixed entropy_bits 1 ++ " bits). Increase password complexity."

/-- Short-length recommendation of generate_recommendations. -/
def recMsgShort : String :=
  "Password is too short. Use at least 8 characters."

/-- Medium-length recommendation of generate_recommendations. -/
def recMsgLonger : String :=
  "Consider using a longer password (12+ characters) for better security."

/-- Missing-lowercase recommendation of generate_recommendations. -/
def recMsgLower : String :=
  "Add lowercase letters to increase character variety."

/-- Missing-uppercase recommendation of generate_recommendations. -/
def recMsgUpper : String :=
  "Add uppercase letters to increase character variety."

/-- Missing-digit recommendation of generate_recommendations. -/
def recMsgDigit : String :=
  "Add numbers to increase character variety."

/-- Missing-special recommendation of generate_recommendations. -/
def recMsgSpecial : String :=
  "Add special characters to increase character variety."

/-- Repeated-characters recommendation of generate_recommendations. -/
def recMsgRepeated : String :=
  "Avoid repeating the same character multiple times."

/-- Sequential-pattern recommendation of generate_recommendations. -/
def recMsgSequential : String :=
  "Avoid sequential patterns (abc, 123, etc.)."

/-- Keyboard-pattern recommendation of generate_recommendations. -/
def recMsgKeyboard : String :=
  "Avoid keyboard patterns (qwerty, asdf, etc.)."

/-- Dictionary-word recommendation of generate_recommendations. -/
def recMsgDictionary : String :=
  "Avoid common dictionary words. Use random or uncommon words."

/-- Year-pattern recommendation of generate_recommendations. -/
def recMsgYear : String :=
  "Avoid year patterns. Don\x27t use birth years or common years."

/-- Username-similarity recommendation of generate_recommendations. -/
def recMsgUsername : String :=
  "Don\x27t use your username or email in your password."

/-- Leetspeak recommendation of generate_recommendations. -/
def recMsgLeetspeak : String :=
  "Leetspeak substitutions (p@ssw0rd) are predictable. Use truly random characters."

/-- Fallback recommendation of generate_recommendations. -/
def recMsgGood : String :=
  "Password meets good security practices. Keep it secure and don\x27t reuse it."

/-- Python key-membership test on the pattern-issue dict model. -/
def keyIn (pattern_issues : List (String × List String)) (k : String) : Bool :=
  pattern_issues.any fun p => p.1 == k

/-- Pattern-specific section of PasswordScorer.generate_recommendations,
scorer.py lines 163-176, a straight-line translation: one fixed message
per pattern key present, in the order repeated_chars, sequential_chars,
keyboard_pattern, dictionary_word, year_pattern, username_similarity,
leetspeak; no branch queries low_variety. -/
def patternSectionRecs (pattern_issues : List (String × List String)) : List String :=
  (if keyIn pattern_issues "repeated_chars" then [recMsgRepeated] else [])
  ++ (if keyIn pattern_issues "sequential_chars" then [recMsgSequential] else [])
  ++ (if keyIn pattern_issues "keyboard_pattern" then [recMsgKeyboard] else [])
  ++ (if keyIn pattern_issues "dictionary_word" then [recMsgDictionary] else [])
  ++ (if keyIn pattern_issues "year_pattern" then [recMsgYear] else [])
  ++ (if keyIn pattern_issues "username_similarity" then [recMsgUsername] else [])
  ++ (if keyIn pattern_issues "leetspeak" then [recMsgLeetspeak] else [])

/-- PasswordScorer.generate_recommendations of scorer.py.  The score
parameter is accepted and unused, as in the source. -/
def generate_recommendations (score : ℤ) (strength : String) (entropy_bits : ℚ)
    (pattern_issues : List (String × List String)) (is_breached : Bool)
    (char_classes : CharClasses) (length : ℕ) : List String :=
  if is_breached then [recMsgBreached]
  else
    let recs :=
      (if strength = "Weak" then [recMsgWeak] else [])
      ++ (if entropy_bits < MIN_ENTROPY_BITS then [recMsgEntropy entropy_bits] else [])
      ++ (if length < 8 then [recMsgShort]
          else if length < 12 then [recMsgLonger] else [])
      ++ (if char_classes.has_lower then [] else [recMsgLower])
      ++ (if char_classes.has_upper then [] else [recMsgUpper])
      ++ (if char_classes.has_digit then [] else [recMsgDigit])
      ++ (if char_classes.has_special then [] else [recMsgSpecial])
      ++ patternSectionRecs pattern_issues
    if recs = [] then [recMsgGood] else recs

/-- The seven fixed pattern-category recommendation messages that
generate_recommendations can emit. -/
def patternRecMessages : List String :=
  [recMsgRepeated, recMsgSequential, recMsgKeyboard, recMsgDictionary,
   recMsgYear, recMsgUsername, recMsgLeetspeak]

/-! ## breach.py -/

/-- Outcome of the network interaction performed by _check_hibp: the
requests library may be missing (ImportError), deliver a response with a
status code and text body, or raise (timeout, connection error, and so
on). -/
inductive HibpEnv where
  | importError : HibpEnv
  | response : ℕ → String → HibpEnv
  | exn : String → HibpEnv
deriving DecidableEq

/-- Reason string of a local blacklist hit, breach.py line 71. -/
def blacklistBreachReason : String :=
  "Password found in common breach database (top 10k)"

/-- Reason string of an HIBP hit with the reported count, breach.py line 113. -/
def hibpBreachReason (count : String) : String :=
  "Password found in HIBP database (" ++ count ++ " breaches)"

/-- Diagnostic reason of a missing requests library, breach.py line 118. -/
def hibpImportErrorReason : String :=
  "HIBP check requires \x27requests\x27 library"

/-- Diagnostic reason of a failed HIBP request, breach.py line 121. -/
def hibpFailedReason (msg : String) : String :=
  "HIBP check failed: " ++ msg

/-- Query URL built by _check_hibp, breach.py lines 98-103: the uppercase
hex SHA-1 digest of the password is cut after five characters and appended
to the configured base URL.  sha1hex models hashlib.sha1 hexdigest of the
UTF-8 encoded password. -/
def hibpQueryUrl (cfg : BreachConfig) (sha1hex : String → List Char) (password : String) :
    String :=
  let passwordHash := pyUpperL (sha1hex password)
  cfg.hibp_api_url ++ String.mk (passwordHash.take 5)

/-- Python str.splitlines, modelled as splitting on the newline character. -/
def splitLines (s : String) : List (List Char) := splitOnChar '\n' s.data

/-- BreachChecker._check_hibp of breach.py.  A 200 response is scanned
line by line for the first suffix:count entry matching the digest suffix;
ImportError and request failures are fail-open with a diagnostic reason. -/
def check_hibp (cfg : BreachConfig) (sha1hex : String → List Char) (env : HibpEnv)
    (password : String) : Bool × Option String :=
  match env with
  | .importError => (false, some hibpImportErrorReason)
  | .exn msg => (false, some (hibpFailedReason msg))
  | .response status text =>
    let passwordHash := pyUpperL (sha1hex password)
    let hashSuffix := passwordHash.drop 5
    if status = 200 then
      let hit := ((splitLines text).filterMap fun line =>
        if line.contains ':' then
          match splitOnChar ':' line with
          | sfx :: rest =>
            if sfx = hashSuffix then some (List.intercalate [':'] rest) else none
          | [] => none
        else none).head?
      match hit with
      | some count => (true, some (hibpBreachReason (String.mk count)))
      | none => (false, none)
    else (false, none)

/-- BreachChecker.check_breach of breach.py: local blacklist first, then
the HIBP check when enabled; a non-breached HIBP outcome falls through to
the final return of (False, None). -/
def check_breach (cfg : BreachConfig) (blacklist : List String)
    (sha1hex : String → List Char) (env : HibpEnv) (password : String) :
    Bool × Option String :=
  let passwordLower := pyLower password
  if blacklist.contains passwordLower then (true, some blacklistBreachReason)
  else if cfg.hibp_enabled then
    let r := check_hibp cfg sha1hex env password
    if r.1 then (true, r.2) else (false, none)
  else (false, none)

/-- BreachChecker.add_to_blacklist of breach.py: the lowercased password
is added to the in-memory set (modelled with idempotent list insertion). -/
def add_to_blacklist (blacklist : List String) (password : String) : List String :=
  if blacklist.contains (pyLower password) then blacklist
  else pyLower password :: blacklist

/-! ## evaluator.py -/

/-- Result dict of PasswordEvaluator.evaluate with its seven fields. -/
structure EvaluationResult where
  score : ℤ
  strength : String
  entropy_bits : ℚ
  issues : List String
  recommendations : List String
  is_breached : Bool
  breach_reason : Option String
deriving DecidableEq

/-- Well-formedness of an evaluation result: score within bounds, one of
the four labels, non-negative entropy, and non-empty issue and
recommendation lists; the seven fields are present by the record type. -/
def wellFormedResult (r : EvaluationResult) : Prop :=
  0 ≤ r.score ∧ r.score ≤ 100 ∧
  (r.strength = "Weak" ∨ r.strength = "Medium" ∨ r.strength = "Strong" ∨
    r.strength = "Very Strong") ∧
  0 ≤ r.entropy_bits ∧ r.issues ≠ [] ∧ r.recommendations ≠ []

/-- PasswordEvaluator.evaluate of evaluator.py: empty-password
short-circuit, then pattern detection, entropy, breach check, score,
classification, recommendations, and the assembled issues list. -/
def evaluate (log2 : ℕ → ℚ) (ratio : String → String → ℚ) (sha1hex : String → List Char)
    (dictionaryWords : List String) (blacklist : List String) (cfg : BreachConfig)
    (env : HibpEnv) (password : String) (username email : Option String) :
    EvaluationResult :=
  if password = "" then
    ⟨0, "Weak", 0, ["Password is empty"], ["Password cannot be empty"], false, none⟩
  else
    let pattern_issues := detect_all ratio dictionaryWords password username email
    let has_patterns := !pattern_issues.isEmpty
    let ec := calculate_entropy log2 password has_patterns
    let entropy_bits := ec.1
    let char_classes := ec.2
    let br := check_breach cfg blacklist sha1hex env password
    let is_breached := br.1
    let breach_reason := br.2
    let score := calculate_score entropy_bits pattern_issues is_breached password.length
    let strength := classify_strength score
    let recommendations := generate_recommendations score strength entropy_bits
      pattern_issues is_breached char_classes password.length
    let issues0 := pattern_issues.foldl (fun acc p => acc ++ p.2) []
    let issues1 :=
      if is_breached = true ∧ truthyOpt breach_reason = true then
        breach_reason.getD "" :: issues0
      else issues0
    let issues := if issues1 = [] then ["No major issues detected"] else issues1
    ⟨score, strength, round2 entropy_bits, issues, recommendations, is_breached, breach_reason⟩

/-! ## Helper lemmas -/

theorem calculate_score_nonneg (e : ℚ) (pi : List (String × List String))
    (b : Bool) (l : ℕ) : 0 ≤ calculate_score e pi b l := by
  unfold calculate_score
  cases b with
  | true => simp
  | false => simp [le_max_left]

theorem calculate_score_le_100 (e : ℚ) (pi : List (String × List String))
    (b : Bool) (l : ℕ) : calculate_score e pi b l ≤ 100 := by
  unfold calculate_score
  cases b with
  | true => simp
  | false =>
    simp only [Bool.false_eq_true, if_false]
    exact max_le (by norm_num) (min_le_left _ _)

theorem classify_strength_mem (s : ℤ) :
    classify_strength s = "Weak" ∨ classify_strength s = "Medium" ∨
    classify_strength s = "Strong" ∨ classify_strength s = "Very Strong" := by
  unfold classify_strength
  split_ifs <;> tauto

theorem ite_fallback_ne_nil (l : List String) : (if l = [] then [recMsgGood] else l) ≠ [] := by
  split_ifs with h
  · simp
  · exact h

theorem generate_recommendations_ne_nil (score : ℤ) (strength : String)
    (entropy_bits : ℚ) (pi : List (String × List String)) (b : Bool)
    (cc : CharClasses) (l : ℕ) :
    generate_recommendations score strength entropy_bits pi b cc l ≠ [] := by
  cases b with
  | true => simp [generate_recommendations]
  | false => exact ite_fallback_ne_nil _

theorem calculate_entropy_fst_nonneg (log2 : ℕ → ℚ) (p : String) (hp : Bool) :
    0 ≤ (calculate_entropy log2 p hp).1 := by
  unfold calculate_entropy
  split_ifs <;> simp [le_max_left]

theorem roundHalfEven_nonneg (x : ℚ) (h : 0 ≤ x) : 0 ≤ roundHalfEven x := by
  have hf : 0 ≤ Int.floor x := Int.floor_nonneg.mpr h
  simp only [roundHalfEven]
  split_ifs <;> omega

theorem round2_nonneg (q : ℚ) (h : 0 ≤ q) : 0 ≤ round2 q := by
  unfold round2
  have : (0 : ℤ) ≤ roundHalfEven (q * 100) :=
    roundHalfEven_nonneg _ (by positivity)
  positivity

/-! ## Claim theorems -/

/-- C1: for every entropy value, pattern-issue map and length,
calculate_score with is_breached = true returns exactly 0; no entropy,
pattern content or length bonus can raise the score of a breached
password above 0. -/
theorem calculate_score_breached_zero (entropy_bits : ℚ)
    (pattern_issues : List (String × List String)) (length : ℕ) :
    calculate_score entropy_bits pattern_issues true length = 0 := rfl

/-- C4: every score produced by calculate_score lies in [0, 100], and
classify_strength maps a score to exactly one of the four labels by the
boundaries: below 40 Weak, in [40, 60) Medium, in [60, 80) Strong, in
[80, 100] Very Strong. -/
theorem score_range_and_classify_boundaries :
    (∀ (e : ℚ) (pi : List (String × List String)) (b : Bool) (l : ℕ),
      0 ≤ calculate_score e pi b l ∧ calculate_score e pi b l ≤ 100) ∧
    (∀ s : ℤ,
      (s < 40 → classify_strength s = "Weak") ∧
      (40 ≤ s → s < 60 → classify_strength s = "Medium") ∧
      (60 ≤ s → s < 80 → classify_strength s = "Strong") ∧
      (80 ≤ s → s ≤ 100 → classify_strength s = "Very Strong")) := by
  constructor
  · intro e pi b l
    exact ⟨calculate_score_nonneg e pi b l, calculate_score_le_100 e pi b l⟩
  · intro s
    have t1 : SCORE_THRESHOLDS "WEAK" = 40 := rfl
    have t2 : SCORE_THRESHOLDS "MEDIUM" = 60 := rfl
    have t3 : SCORE_THRESHOLDS "STRONG" = 80 := rfl
    refine ⟨fun h1 => ?_, fun h2a h2b => ?_, fun h3a h3b => ?_, fun h4a _ => ?_⟩ <;>
      (unfold classify_strength; rw [t1, t2, t3]; split_ifs) <;>
      first | rfl | (exfalso; omega)

/-- C4 witness: the range bound and each classification band evaluated at
a concrete score. -/
theorem score_range_and_classify_boundaries_witness :
    (0 ≤ calculate_score 30 [] false 5 ∧ calculate_score 30 [] false 5 ≤ 100) ∧
    classify_strength 30 = "Weak" ∧ classify_strength 50 = "Medium" ∧
    classify_strength 70 = "Strong" ∧ classify_strength 90 = "Very Strong" :=
  ⟨score_range_and_classify_boundaries.1 30 [] false 5,
   (score_range_and_classify_boundaries.2 30).1 (by decide),
   (score_range_and_classify_boundaries.2 50).2.1 (by decide) (by decide),
   (score_range_and_classify_boundaries.2 70).2.2.1 (by decide) (by decide),
   (score_range_and_classify_boundaries.2 90).2.2.2 (by decide) (by decide)⟩

/-- C9: evaluating the empty password yields the fixed terminal result
with score 0, strength Weak, entropy 0, not breached, null breach reason
and the single issue string, for every dictionary, blacklist, breach
configuration, network outcome and library-function parameter: none of
the pattern detector, entropy estimator, breach checker or scorer can
influence it. -/
theorem evaluate_empty_password (log2 : ℕ → ℚ) (ratio : String → String → ℚ)
    (sha1hex : String → List Char) (dictionaryWords blacklist : List String)
    (cfg : BreachConfig) (env : HibpEnv) (username email : Option String) :
    evaluate log2 ratio sha1hex dictionaryWords blacklist cfg env "" username email =
      ⟨0, "Weak", 0, ["Password is empty"], ["Password cannot be empty"], false, none⟩ :=
  rfl

/-- C10: after add_to_blacklist p, check_breach finds any letter-case
variant q of p breached with the fixed non-null blacklist reason, in
every starting state and breach configuration, because both operations
lowercase the password before the set operation. -/
theorem blacklist_roundtrip_case_insensitive (cfg : BreachConfig)
    (blacklist : List String) (sha1hex : String → List Char) (env : HibpEnv)
    (p q : String) (hcase : pyLower q = pyLower p) :
    check_breach cfg (add_to_blacklist blacklist p) sha1hex env q =
      (true, some blacklistBreachReason) := by
  have hmem : (add_to_blacklist blacklist p).contains (pyLower q) = true := by
    rw [hcase]
    unfold add_to_blacklist
    split_ifs with h
    · exact h
    · simp
  simp only [check_breach]
  rw [hmem]
  simp

/-- C10 witness: round trip for blacklisting AbC and checking aBc. -/
theorem blacklist_roundtrip_case_insensitive_witness :
    pyLower "aBc" = pyLower "AbC" ∧
    check_breach BREACH_CONFIG (add_to_blacklist [] "AbC")
      (fun _ => []) (.response 0 "") "aBc" = (true, some blacklistBreachReason) :=
  ⟨by decide,
   blacklist_roundtrip_case_insensitive BREACH_CONFIG [] (fun _ => [])
     (.response 0 "") "AbC" "aBc" (by decide)⟩

/-- C6: the query URL of the remote breach check depends on the password
only through the first five characters of its SHA-1 hex digest: any two
passwords whose digests agree on that prefix produce the same URL, for
every digest function and configuration, so neither the full password
nor the full hash is part of the URL. -/
theorem hibp_query_url_depends_only_on_digest_head (cfg : BreachConfig)
    (sha1hex : String → List Char) (p1 p2 : String)
    (h : (sha1hex p1).take 5 = (sha1hex p2).take 5) :
    hibpQueryUrl cfg sha1hex p1 = hibpQueryUrl cfg sha1hex p2 := by
  simp only [hibpQueryUrl, pyUpperL]
  rw [← List.map_take, ← List.map_take, h]

/-- C6 witness: two distinct passwords mapped by a digest function to
hex strings sharing the first five characters get the same URL. -/
theorem hibp_query_url_depends_only_on_digest_head_witness :
    ((fun s : String => if s = "a" then "abcde11111".data else "abcde22222".data) "a").take 5 =
      ((fun s : String => if s = "a" then "abcde11111".data else "abcde22222".data) "b").take 5 ∧
    hibpQueryUrl BREACH_CONFIG
        (fun s => if s = "a" then "abcde11111".data else "abcde22222".data) "a" =
      hibpQueryUrl BREACH_CONFIG
        (fun s => if s = "a" then "abcde11111".data else "abcde22222".data) "b" :=
  ⟨by decide,
   hibp_query_url_depends_only_on_digest_head BREACH_CONFIG _ "a" "b" (by decide)⟩

/-- Helper: monotonicity of clamping at zero. -/
theorem max0_le_max0 {x y : ℚ} (h : x ≤ y ∨ x ≤ 0) : max 0 x ≤ max 0 y := by
  rcases h with h | h
  · exact max_le (le_max_left 0 y) (le_trans h (le_max_right 0 y))
  · rw [max_eq_left h]
    exact le_max_left 0 y

/-- C7: the entropy estimate is monotone: (a) with equal character-class
flags and the same has_patterns flag, a password at least as long gets at
least as much entropy, for every value of the log2 primitive; (b) for a
fixed password, entropy with has_patterns = true never exceeds entropy
with has_patterns = false. -/
theorem entropy_monotonicity :
    (∀ (log2 : ℕ → ℚ) (p q : String) (hp : Bool),
      flagsOf (calculate_entropy log2 p hp).2 = flagsOf (calculate_entropy log2 q hp).2 →
      p.length ≤ q.length →
      (calculate_entropy log2 p hp).1 ≤ (calculate_entropy log2 q hp).1) ∧
    (∀ (log2 : ℕ → ℚ) (p : String),
      (calculate_entropy log2 p true).1 ≤ (calculate_entropy log2 p false).1) := by
  have hm0 : (0 : ℚ) ≤ 1 - ENTROPY_PENALTY_MULTIPLIER := by
    norm_num [ENTROPY_PENALTY_MULTIPLIER]
  have hm1 : 1 - ENTROPY_PENALTY_MULTIPLIER ≤ (1 : ℚ) := by
    norm_num [ENTROPY_PENALTY_MULTIPLIER]
  constructor
  · intro log2 p q hp hflags hlen
    by_cases hp0 : p = ""
    · rw [hp0]
      calc (calculate_entropy log2 "" hp).1 = 0 := by simp [calculate_entropy]
        _ ≤ (calculate_entropy log2 q hp).1 := calculate_entropy_fst_nonneg log2 q hp
    · by_cases hq0 : q = ""
      · exfalso
        apply hp0
        have hql : q.length = 0 := by rw [hq0]; rfl
        have hpl : p.length = 0 := by omega
        have hd : p.data = [] := List.length_eq_zero.mp hpl
        cases p with
        | mk d => simp only at hd; rw [hd]
      · simp only [calculate_entropy, if_neg hp0, if_neg hq0, flagsOf] at hflags ⊢
        simp only [Prod.mk.injEq] at hflags
        obtain ⟨h1, h2, h3, h4⟩ := hflags
        rw [h1, h2, h3, h4]
        set P := get_char_pool_size (q.data.any Char.isLower) (q.data.any Char.isUpper)
          (q.data.any Char.isDigit) (q.data.any fun c => SPECIAL_CHARS.contains c) with hP
        have hcast : ((p.length : ℚ)) ≤ (q.length : ℚ) := by exact_mod_cast hlen
        have hplen : (0 : ℚ) ≤ (p.length : ℚ) := by positivity
        rcases le_or_lt 0 (log2 P) with hpos | hneg
        · cases hp with
          | false =>
            simp only [Bool.false_eq_true, if_false]
            exact max0_le_max0 (Or.inl (mul_le_mul_of_nonneg_right hcast hpos))
          | true =>
            simp only [if_pos]
            exact max0_le_max0 (Or.inl (mul_le_mul_of_nonneg_right
              (mul_le_mul_of_nonneg_right hcast hpos) hm0))
        · have hnp : (p.length : ℚ) * log2 P ≤ 0 :=
            mul_nonpos_of_nonneg_of_nonpos hplen (le_of_lt hneg)
          cases hp with
          | false =>
            simp only [Bool.false_eq_true, if_false]
            exact max0_le_max0 (Or.inr hnp)
          | true =>
            simp only [if_pos]
            exact max0_le_max0 (Or.inr (by nlinarith [hnp, hm0]))
  · intro log2 p
    by_cases hp0 : p = ""
    · simp [calculate_entropy, hp0]
    · simp only [calculate_entropy, if_neg hp0, Bool.false_eq_true, if_false, if_pos]
      set B := (p.length : ℚ) * log2 (get_char_pool_size (p.data.any Char.isLower)
        (p.data.any Char.isUpper) (p.data.any Char.isDigit)
        (p.data.any fun c => SPECIAL_CHARS.contains c)) with hB
      rcases le_or_lt 0 B with hpos | hneg
      · exact max0_le_max0 (Or.inl (by nlinarith [hpos, hm1]))
      · exact max0_le_max0 (Or.inr (by nlinarith [le_of_lt hneg, hm0]))

/-- C7 witness: concrete instantiation of part (a) at two all-lowercase
passwords under a concrete log2 value. -/
theorem entropy_monotonicity_witness :
    flagsOf (calculate_entropy (fun _ => 2) "ab" false).2 =
      flagsOf (calculate_entropy (fun _ => 2) "abc" false).2 ∧
    "ab".length ≤ "abc".length ∧
    (calculate_entropy (fun _ => 2) "ab" false).1 ≤
      (calculate_entropy (fun _ => 2) "abc" false).1 :=
  ⟨by decide, by decide,
   entropy_monotonicity.1 (fun _ => 2) "ab" "abc" false (by decide) (by decide)⟩

/-- C8: on a length-4 all-digit window the ascending-numeric predicate
holds exactly when each successive digit is the previous plus one modulo
10, and the descending predicate exactly when each is the previous minus
one modulo 10; consequently the 9-to-0 wrap window 9012 is reported by
the sequential detector as a numerical pattern and the 0-to-9 wrap window
1098 as a descending numerical pattern. -/
theorem numeric_sequence_wraparound :
    (∀ a b c d : Char, ([a, b, c, d].all Char.isDigit) = true →
      (is_ascending_numeric [a, b, c, d] = true ↔
        (digitVal b = (digitVal a + 1) % 10 ∧ digitVal c = (digitVal b + 1) % 10 ∧
         digitVal d = (digitVal c + 1) % 10))) ∧
    (∀ a b c d : Char, ([a, b, c, d].all Char.isDigit) = true →
      (is_descending_numeric [a, b, c, d] = true ↔
        (digitVal b = (digitVal a - 1) % 10 ∧ digitVal c = (digitVal b - 1) % 10 ∧
         digitVal d = (digitVal c - 1) % 10))) ∧
    detect_sequential_chars "9012" = ["Sequential pattern: \x279012\x27 (numerical)"] ∧
    detect_sequential_chars "1098" =
      ["Sequential pattern: \x271098\x27 (numerical descending)"] := by
  refine ⟨?_, ?_, by decide, by decide⟩
  · intro a b c d hdig
    simp only [is_ascending_numeric, pyStrIsDigit, ascNumChain, hdig,
      Bool.and_true, Bool.and_eq_true, beq_iff_eq, List.isEmpty_cons,
      Bool.not_false, true_and]
  · intro a b c d hdig
    simp only [is_descending_numeric, pyStrIsDigit, descNumChain, hdig,
      Bool.and_true, Bool.and_eq_true, beq_iff_eq, List.isEmpty_cons,
      Bool.not_false, true_and]

/-- C8 witness: the ascending characterization applied to the concrete
wrap window 9012, extracting the 9-to-0 step. -/
theorem numeric_sequence_wraparound_witness :
    (['9', '0', '1', '2'].all Char.isDigit) = true ∧
    digitVal '0' = (digitVal '9' + 1) % 10 :=
  ⟨by decide,
   ((numeric_sequence_wraparound.1 '9' '0' '1' '2' (by decide)).mp (by decide)).1⟩

/-- C2 counterexample: with the remote check enabled, an empty local
blacklist and a failing remote query (a raised timeout), check_breach
returns is_breached = false with a null reason, not the non-null
diagnostic the claim requires. -/
theorem check_breach_drops_failure_diagnostic :
    check_breach ⟨"data/top_10k_passwords.txt", "https://api.pwnedpasswords.com/range/",
        true, true⟩ [] (fun _ => []) (.exn "Connection timed out") "hunter2" =
      (false, none) := by decide

/-- First character of the HIBP failure diagnostic. -/
theorem hibpFailedReason_head (msg : String) :
    (hibpFailedReason msg).data.head? = some 'H' := rfl

/-- First character of the HIBP breach reason. -/
theorem hibpBreachReason_head (count : String) :
    (hibpBreachReason count).data.head? = some 'P' := rfl

/-- First character of the blacklist breach reason. -/
theorem blacklistBreachReason_head :
    blacklistBreachReason.data.head? = some 'P' := rfl

/-- C2 amended: on a failing remote query the inner _check_hibp is
fail-open with a non-null diagnostic reason distinct from every true
breach reason, but check_breach discards that diagnostic and returns
(false, none), so the caller of check_breach cannot distinguish a
confirmed clear result from a failed check. -/
theorem hibp_fail_open_diagnostic_discarded (cfg : BreachConfig)
    (sha1hex : String → List Char) (pw msg : String) :
    (check_hibp cfg sha1hex (.exn msg) pw = (false, some (hibpFailedReason msg)) ∧
     check_hibp cfg sha1hex .importError pw = (false, some hibpImportErrorReason)) ∧
    (∀ count, hibpFailedReason msg ≠ hibpBreachReason count ∧
      hibpFailedReason msg ≠ blacklistBreachReason) ∧
    (∀ blacklist : List String, blacklist.contains (pyLower pw) = false →
      cfg.hibp_enabled = true →
      check_breach cfg blacklist sha1hex (.exn msg) pw = (false, none)) := by
  refine ⟨⟨rfl, rfl⟩, ?_, ?_⟩
  · intro count
    constructor
    · intro h
      have hh : (hibpFailedReason msg).data.head? = (hibpBreachReason count).data.head? := by
        rw [h]
      rw [hibpFailedReason_head, hibpBreachReason_head] at hh
      exact absurd hh (by decide)
    · intro h
      have hh : (hibpFailedReason msg).data.head? = blacklistBreachReason.data.head? := by
        rw [h]
      rw [hibpFailedReason_head, blacklistBreachReason_head] at hh
      exact absurd hh (by decide)
  · intro blacklist hb he
    simp only [check_breach, hb, Bool.false_eq_true, if_false, he, if_pos, if_true]
    rfl

/-- C2 witness: the amended statement instantiated at a concrete
configuration, password and timeout message. -/
theorem hibp_fail_open_diagnostic_discarded_witness :
    ((([] : List String).contains (pyLower "hunter2")) = false) ∧
    check_hibp BREACH_CONFIG (fun _ => []) (.exn "timed out") "hunter2" =
      (false, some (hibpFailedReason "timed out")) ∧
    check_breach ⟨"data/top_10k_passwords.txt", "https://api.pwnedpasswords.com/range/",
        true, true⟩ [] (fun _ => []) (.exn "timed out") "hunter2" = (false, none) :=
  ⟨by decide,
   (hibp_fail_open_diagnostic_discarded BREACH_CONFIG (fun _ => []) "hunter2" "timed out").1.1,
   (hibp_fail_open_diagnostic_discarded
      ⟨"data/top_10k_passwords.txt", "https://api.pwnedpasswords.com/range/", true, true⟩
      (fun _ => []) "hunter2" "timed out").2.2 [] (by decide) rfl⟩

/-- Membership in a conditional singleton forces equality. -/
theorem mem_ite_singleton {m x : String} {c : Prop} [Decidable c]
    (h : m ∈ (if c then [x] else [])) : m = x := by
  split_ifs at h with hc
  · simpa using h
  · simp at h

/-- Membership in a two-way conditional singleton forces one of two
equalities. -/
theorem mem_ite_ite_singleton {m x y : String} {c1 c2 : Prop}
    [Decidable c1] [Decidable c2]
    (h : m ∈ (if c1 then [x] else if c2 then [y] else [])) : m = x ∨ m = y := by
  split_ifs at h with hc1 hc2
  · exact Or.inl (by simpa using h)
  · exact Or.inr (by simpa using h)
  · simp at h

/-- Membership in a reversed conditional singleton forces equality. -/
theorem mem_ite_singleton_swap {m x : String} {c : Prop} [Decidable c]
    (h : m ∈ (if c then [] else [x])) : m = x := by
  split_ifs at h with hc
  · simp at h
  · simpa using h

/-- First character of the low-entropy recommendation, for every entropy
value. -/
theorem recMsgEntropy_head (e : ℚ) : (recMsgEntropy e).data.head? = some 'E' := rfl

/-- The low-entropy recommendation never equals a string whose first
character is not E. -/
theorem recMsgEntropy_beq_false (e : ℚ) (m : String) (hm : m.data.head? ≠ some 'E') :
    (recMsgEntropy e == m) = false := by
  rw [beq_eq_false_iff_ne]
  intro h
  exact hm (by rw [← h]; rfl)

/-- The low-entropy recommendation is not one of the seven pattern
messages. -/
theorem patternRecMessages_not_contains_entropy (e : ℚ) :
    patternRecMessages.contains (recMsgEntropy e) = false := by
  simp only [patternRecMessages, List.contains_cons, List.contains_nil,
    recMsgEntropy_beq_false e recMsgRepeated (by decide),
    recMsgEntropy_beq_false e recMsgSequential (by decide),
    recMsgEntropy_beq_false e recMsgKeyboard (by decide),
    recMsgEntropy_beq_false e recMsgDictionary (by decide),
    recMsgEntropy_beq_false e recMsgYear (by decide),
    recMsgEntropy_beq_false e recMsgUsername (by decide),
    recMsgEntropy_beq_false e recMsgLeetspeak (by decide),
    Bool.or_self, Bool.or_false]

/-- Every element of the pattern section is a pattern message. -/
theorem patternSectionRecs_all_pattern (pi : List (String × List String)) :
    ∀ m ∈ patternSectionRecs pi, patternRecMessages.contains m = true := by
  intro m hm
  simp only [patternSectionRecs, List.mem_append] at hm
  rcases hm with ((((((h | h) | h) | h) | h) | h) | h) <;>
    rw [mem_ite_singleton h] <;> decide

/-- Filtering the assembled recommendation list for pattern messages
recovers exactly the pattern section. -/
theorem filter_pattern_recs (pre pats : List String)
    (hpre : ∀ m ∈ pre, patternRecMessages.contains m = false)
    (hpats : ∀ m ∈ pats, patternRecMessages.contains m = true) :
    (if pre ++ pats = [] then [recMsgGood] else pre ++ pats).filter
        (fun m => patternRecMessages.contains m) = pats := by
  split_ifs with h
  · rw [(List.append_eq_nil.mp h).2]
    simp only [List.filter_cons, List.filter_nil]
    rw [if_neg (by decide : ¬ patternRecMessages.contains recMsgGood = true)]
  · rw [List.filter_append]
    have h1 : pre.filter (fun m => patternRecMessages.contains m) = [] := by
      rw [List.filter_eq_nil_iff]
      intro a ha
      have hh := hpre a ha
      simp_all
    have h2 : pats.filter (fun m => patternRecMessages.contains m) = pats := by
      rw [List.filter_eq_self]
      exact hpats
    rw [h1, h2, List.nil_append]

/-- C3 counterexample: with leetspeak and dictionary_word both present
(non-breached, all other triggers quiet) the dictionary message precedes
the leetspeak message, contradicting the claimed order; and with only
low_variety present the output is the single good-practices message, so
low_variety yields no message at all. -/
theorem recommendations_order_counterexample :
    generate_recommendations 85 "Very Strong" 50
        [("leetspeak", ["x"]), ("dictionary_word", ["y"])] false
        ⟨true, true, true, true, 94⟩ 16 = [recMsgDictionary, recMsgLeetspeak] ∧
    recMsgDictionary ≠ recMsgLeetspeak ∧
    generate_recommendations 85 "Very Strong" 50 [("low_variety", ["z"])] false
        ⟨true, true, true, true, 94⟩ 16 = [recMsgGood] := by
  refine ⟨by decide, by decide, by decide⟩

/-- C3 amended: for every non-breached input, the pattern-category
messages appearing in generate_recommendations are exactly one fixed
message per present category among repeated_chars, sequential_chars,
keyboard_pattern, dictionary_word, year_pattern, username_similarity and
leetspeak, in that order (so dictionary_word precedes leetspeak), and a
present low_variety category contributes no message. -/
theorem recommendations_pattern_messages_code_order (s : ℤ) (st : String) (e : ℚ)
    (pi : List (String × List String)) (cc : CharClasses) (l : ℕ) :
    (generate_recommendations s st e pi false cc l).filter
        (fun m => patternRecMessages.contains m) = patternSectionRecs pi := by
  simp only [generate_recommendations, Bool.false_eq_true, if_false]
  refine filter_pattern_recs _ _ ?_ (patternSectionRecs_all_pattern pi)
  intro m hm
  simp only [List.mem_append] at hm
  rcases hm with (((((h | h) | h) | h) | h) | h) | h
  · rw [mem_ite_singleton h]; decide
  · rw [mem_ite_singleton h]; exact patternRecMessages_not_contains_entropy e
  · rcases mem_ite_ite_singleton h with h2 | h2 <;> rw [h2] <;> decide
  · rw [mem_ite_singleton_swap h]; decide
  · rw [mem_ite_singleton_swap h]; decide
  · rw [mem_ite_singleton_swap h]; decide
  · rw [mem_ite_singleton_swap h]; decide

/-- Helper: the assembled issues list always has the no-major-issues
fallback. -/
theorem issues_fallback_ne_nil (l : List String) :
    (if l = [] then ["No major issues detected"] else l) ≠ [] := by
  split_ifs with h
  · simp
  · exact h

/-- C5: for every password (including the empty string, strings without
recognized character classes and arbitrarily long strings), every
optional username and email, and every dictionary, blacklist,
configuration, network outcome and library-function parameter, evaluate
is a total function producing a well-formed EvaluationResult with all
seven fields. -/
theorem evaluate_total_well_formed (log2 : ℕ → ℚ) (ratio : String → String → ℚ)
    (sha1hex : String → List Char) (dictionaryWords blacklist : List String)
    (cfg : BreachConfig) (env : HibpEnv) (password : String)
    (username email : Option String) :
    wellFormedResult
      (evaluate log2 ratio sha1hex dictionaryWords blacklist cfg env password
        username email) := by
  unfold wellFormedResult evaluate
  split_ifs with h0
  · exact ⟨le_refl 0, by norm_num, Or.inl rfl, le_refl 0, by simp, by simp⟩
  · dsimp only
    refine ⟨?_, ?_, ?_, ?_, ?_, ?_⟩
    · exact calculate_score_nonneg _ _ _ _
    · exact calculate_score_le_100 _ _ _ _
    · exact classify_strength_mem _
    · exact round2_nonneg _ (calculate_entropy_fst_nonneg _ _ _)
    · exact issues_fallback_ne_nil _
    · exact generate_recommendations_ne_nil _ _ _ _ _ _ _
